import Mathlib

/-!
# ChatPage: the conversation state machine of `frontend/src/pages/ChatPage.jsx`

A shallow embedding of the React component `ChatPage`.  The component's
`useState` cells and its `studyTaskRef` are the fields of `State`.  Every event
handler is a function on `State`; what a handler sends to the network or hands
to `setTimeout` is returned next to the new state.  A handler that awaits a
collaborator is split at the `await`: a `Begin` half (what runs before the
request is sent) and an `End` half (what runs when the request settles); the
handler's own name composes the two with no event in between.
-/

namespace ChatPage

/-! ## JavaScript string helpers -/

/-- White space and line terminators, the characters `String.prototype.trim`
removes. -/
def isJsWhitespace (c : Char) : Bool :=
  let n := c.toNat
  n == 0x09 || n == 0x0A || n == 0x0B || n == 0x0C || n == 0x0D || n == 0x20 ||
  n == 0xA0 || n == 0x1680 || (0x2000 ≤ n && n ≤ 0x200A) || n == 0x2028 ||
  n == 0x2029 || n == 0x202F || n == 0x205F || n == 0x3000 || n == 0xFEFF

/-- Characters of `s.trim()`. -/
def trimChars (l : List Char) : List Char :=
  ((l.dropWhile isJsWhitespace).reverse.dropWhile isJsWhitespace).reverse

/-- JavaScript `s.trim()`. -/
def jsTrim (s : String) : String :=
  String.mk (trimChars s.data)

/-- Whether `p` starts the character list `l`. -/
def startsWithChars : List Char → List Char → Bool
  | [], _ => true
  | _ :: _, [] => false
  | a :: p, b :: l => a == b && startsWithChars p l

/-- Whether `p` occurs in the character list `l` as a contiguous run. -/
def containsChars (p : List Char) : List Char → Bool
  | [] => startsWithChars p []
  | c :: l => startsWithChars p (c :: l) || containsChars p l

/-- JavaScript `s.includes(p)`. -/
def jsIncludes (s p : String) : Bool :=
  containsChars p.data s.data

/-- JavaScript `a || d` where `a` is a string or `undefined` and `d` a string:
`undefined` and the empty string are falsy. -/
def orDefault (a : Option String) (d : String) : String :=
  match a with
  | some e => if e = "" then d else e
  | none => d

/-- JavaScript `a || b` on two values that are a string or `undefined`. -/
def orElseJs (a b : Option String) : Option String :=
  match a with
  | some e => if e = "" then b else some e
  | none => b

/-- What a template literal prints for a value that is a string or
`undefined`. -/
def interpolate : Option String → String
  | some s => s
  | none => "undefined"

/-! ## Data model -/

/-- A file handle picked in the file input; the page reads only its name. -/
structure File where
  name : String
  deriving DecidableEq, Repr

/-- The `sender` of a chat turn: `'user'` or `'bot'`. -/
inductive Sender where
  | user
  | bot
  deriving DecidableEq, Repr

/-- One entry of `chatHistory`: `{ sender, text }`. -/
structure ChatTurn where
  sender : Sender
  text : String
  deriving DecidableEq, Repr

/-- The `task` object of a study task; an absent field is `none`. -/
structure Task where
  task_title : Option String
  name : Option String
  task_description : Option String
  description : Option String
  deriving DecidableEq, Repr

/-- The object `location.state.studyTask`.  Two study tasks have the same
`JSON.stringify` image exactly when these records are equal. -/
structure StudyTask where
  task : Task
  scheduleName : Option String
  deriving DecidableEq, Repr

/-- The state cells of `ChatPage` (lines 12-20). -/
structure State where
  file : Option File
  question : String
  chatHistory : List ChatTurn
  isLoading : Bool
  uploadStatus : String
  isRagMode : Bool
  studyProcessed : Bool
  studyTaskRef : Option StudyTask
  deriving DecidableEq, Repr

/-- The state a freshly mounted page starts from. -/
def initialState : State :=
  { file := none, question := "", chatHistory := [], isLoading := false,
    uploadStatus := "", isRagMode := false, studyProcessed := false,
    studyTaskRef := none }

/-- The body posted to `/api/rag/ask`. -/
structure AskRequest where
  question : String
  isGeneral : Bool
  deriving DecidableEq, Repr

/-- How a call to `/api/rag/ask` settles: `response.data.answer`, or a
rejection with `error.response?.data?.error`. -/
inductive AskResponse where
  | answer (text : String)
  | failure (error : Option String)
  deriving DecidableEq, Repr

/-- How a call to `/api/rag/upload` settles. -/
inductive UploadResponse where
  | success
  | failure (error : Option String)
  deriving DecidableEq, Repr

/-! ## handleAskQuestion (lines 145-169) -/

/-- The text of the assistant turn `handleAskQuestion` appends. -/
def askReplyText : AskResponse → String
  | .answer text => text
  | .failure error => orDefault error "Sorry, I encountered an error."

/-- Lines 146-159: up to the moment the request is sent.  `none` is the early
`return` on a blank question. -/
def handleAskQuestionBegin (s : State) : Option (State × AskRequest) :=
  if jsTrim s.question = "" then none
  else
    some ({ s with
            isLoading := true
            chatHistory := s.chatHistory ++ [{ sender := .user, text := s.question }]
            question := "" },
          { question := s.question, isGeneral := !s.isRagMode })

/-- Lines 160-168: the request settled. -/
def handleAskQuestionEnd (s : State) (r : AskResponse) : State :=
  { s with
    chatHistory := s.chatHistory ++ [{ sender := .bot, text := askReplyText r }]
    isLoading := false }

/-- One run of `handleAskQuestion` with no other event while the request is in
flight: the final state and the requests sent. -/
def handleAskQuestion (s : State) (r : AskResponse) : State × List AskRequest :=
  match handleAskQuestionBegin s with
  | none => (s, [])
  | some (s1, req) => (handleAskQuestionEnd s1 r, [req])

/-! ## Mode buttons (lines 187-194 and 204-211) and handleClearDocument -/

/-- The `onClick` of the "General Chat" button. -/
def onClickGeneralChat (s : State) : State :=
  { s with
    isRagMode := false
    chatHistory := []
    file := none
    uploadStatus := ""
    studyProcessed := false
    studyTaskRef := none }

/-- The `onClick` of the "Chat with PDF" button. -/
def onClickChatWithPdf (s : State) : State :=
  { s with
    isRagMode := true
    chatHistory := []
    file := none
    uploadStatus := ""
    studyProcessed := false
    studyTaskRef := none }

/-- Lines 171-176. -/
def handleClearDocument (s : State) : State :=
  { s with
    isRagMode := false
    uploadStatus := ""
    file := none
    chatHistory := [] }

/-! ## File selection and upload (lines 104-143) -/

/-- Lines 104-110; `selected` is `e.target.files[0]`. -/
def handleFileChange (s : State) (selected : Option File) : State :=
  match selected with
  | some f => { s with file := some f, uploadStatus := "Ready to upload: " ++ f.name }
  | none => s

/-- The only turn of the log the welcome timer of line 130 installs. -/
def welcomeTurn : ChatTurn :=
  { sender := .bot
    text := "🎉 **PDF Upload Complete!**\n\nYour document has been successfully processed and I'm ready to answer questions about it. You can ask me to:\n\n- **Summarize** the main points\n- **Explain** specific concepts\n- **Find** particular information\n- **Compare** different sections\n\nWhat would you like to know about your document?" }

/-- Lines 113-123: up to the moment the upload request is sent; the second
component is the file posted, `none` when the handler returned early. -/
def handleUploadBegin (s : State) : State × Option File :=
  match s.file with
  | none => ({ s with uploadStatus := "Please select a file first." }, none)
  | some f =>
    ({ s with
       isLoading := true
       uploadStatus := "📤 Analysing Document..."
       chatHistory := [] },
     some f)

/-- Lines 126-142: the upload settled.  The flag tells whether the welcome
timer was handed to `setTimeout`. -/
def handleUploadEnd (s : State) (r : UploadResponse) : State × Bool :=
  match r with
  | .success =>
    ({ s with
       uploadStatus := "✅ PDF uploaded and processed successfully!"
       isRagMode := true
       isLoading := false },
     true)
  | .failure error =>
    ({ s with
       uploadStatus := orDefault error "Error uploading file."
       isRagMode := false
       isLoading := false },
     false)

/-- The callback of the welcome timer (lines 131-134). -/
def fireWelcomeTimer (s : State) : State :=
  { s with chatHistory := [welcomeTurn] }

/-- What one run of `handleUpload` leaves behind. -/
structure UploadRun where
  state : State
  uploads : List File
  welcomeScheduled : Bool
  deriving DecidableEq, Repr

/-- One run of `handleUpload` with no other event while the upload is in
flight. -/
def handleUpload (s : State) (r : UploadResponse) : UploadRun :=
  match handleUploadBegin s with
  | (s1, none) => { state := s1, uploads := [], welcomeScheduled := false }
  | (s1, some f) =>
    { state := (handleUploadEnd s1 r).1, uploads := [f],
      welcomeScheduled := (handleUploadEnd s1 r).2 }

/-! ## The study-task effect (lines 28-63) and handleStudyQuestion (lines 65-102) -/

/-- The template literal of lines 44-49. -/
def studyPrompt (t : StudyTask) : String :=
  "I want to study and learn about: \"" ++
    interpolate (orElseJs t.task.task_title t.task.name) ++ "\"\n\n" ++
    (match orElseJs t.task.task_description t.task.description with
     | some d => if d = "" then "" else "**Topic Details:** " ++ d
     | none => "") ++
    "\n**From:** " ++ orDefault t.scheduleName "My Studies" ++
    "\n\nPlease teach me about this topic with clear explanations and practical examples."

/-- The closure handed to `setTimeout` at line 54.  It and the
`handleStudyQuestion` it calls read `isLoading`, `chatHistory` and `isRagMode`
of the render in which the effect ran, so those values travel with it. -/
structure StudyTimer where
  studyPrompt : String
  isLoading : Bool
  chatHistory : List ChatTurn
  isRagMode : Bool
  deriving DecidableEq, Repr

/-- One run of the effect of lines 28-63 with `location.state?.studyTask`
equal to `studyTask`: the state after its updates and the timer it set. -/
def studyEffect (s : State) (studyTask : Option StudyTask) : State × Option StudyTimer :=
  match studyTask with
  | none => (s, none)
  | some t =>
    if !s.studyProcessed && decide (some t ≠ s.studyTaskRef) then
      ({ s with
         studyTaskRef := some t
         isRagMode := false
         chatHistory := []
         studyProcessed := true
         question := studyPrompt t },
       some { studyPrompt := studyPrompt t, isLoading := s.isLoading,
              chatHistory := s.chatHistory, isRagMode := s.isRagMode })
    else (s, none)

/-- The duplicate test of lines 73-74 on the captured log. -/
def lastIsUserPrompt (log : List ChatTurn) (prompt : String) : Bool :=
  match log.getLast? with
  | some m => m.sender == .user && m.text == prompt
  | none => false

/-- The text of the assistant turn `handleStudyQuestion` appends. -/
def studyReplyText : AskResponse → String
  | .answer text => text
  | .failure error =>
    orDefault error "Sorry, I encountered an error while trying to help you study."

/-- Lines 67-91 of `handleStudyQuestion` as called from the timer `t`, run on
the current state `s`: `none` is one of the two early returns. -/
def handleStudyQuestionBegin (t : StudyTimer) (s : State) : Option (State × AskRequest) :=
  if t.isLoading then none
  else if lastIsUserPrompt t.chatHistory t.studyPrompt then none
  else
    some ({ s with
            isLoading := true
            chatHistory := s.chatHistory ++ [{ sender := .user, text := t.studyPrompt }]
            question := "" },
          { question := t.studyPrompt, isGeneral := !t.isRagMode })

/-- Lines 92-101: the request settled. -/
def handleStudyQuestionEnd (s : State) (r : AskResponse) : State :=
  { s with
    chatHistory := s.chatHistory ++ [{ sender := .bot, text := studyReplyText r }]
    isLoading := false }

/-- One run of `handleStudyQuestion` with no other event while the request is
in flight. -/
def handleStudyQuestion (t : StudyTimer) (s : State) (r : AskResponse) :
    State × List AskRequest :=
  match handleStudyQuestionBegin t s with
  | none => (s, [])
  | some (s1, req) => (handleStudyQuestionEnd s1 r, [req])

/-- The timer callback of lines 54-58 firing on the current state `s`. -/
def fireStudyTimer (t : StudyTimer) (s : State) (r : AskResponse) :
    State × List AskRequest :=
  if !t.isLoading then handleStudyQuestion t s r else (s, [])

/-- Fire the timer an effect run set, if it set one. -/
def fireScheduled (p : State × Option StudyTimer) (r : AskResponse) :
    State × List AskRequest :=
  match p.2 with
  | some t => fireStudyTimer t p.1 r
  | none => (p.1, [])

/-! ## The form (lines 331-377) -/

/-- The `disabled` expression of the question input (line 362). -/
def inputDisabled (s : State) : Bool :=
  s.isLoading || (s.isRagMode && !jsIncludes s.uploadStatus "processed successfully")

/-- The `disabled` expression of the submit button (line 368). -/
def submitDisabled (s : State) : Bool :=
  s.isLoading || decide (jsTrim s.question = "") ||
    (s.isRagMode && !jsIncludes s.uploadStatus "processed successfully")

/-- A submit of the form as the page delivers it: `onSubmit` is
`handleAskQuestion`, and a form whose submit button is disabled is not
submitted. -/
def submitForm (s : State) (r : AskResponse) : State × List AskRequest :=
  if submitDisabled s then (s, []) else handleAskQuestion s r

/-- Typing into the question input (`onChange`, line 356): a disabled input
takes no text. -/
def typeQuestion (s : State) (text : String) : State :=
  if inputDisabled s then s else { s with question := text }

/-! ## Runs of the upload controls -/

/-- The user actions that change the upload state, and typing. -/
inductive PageEvent where
  | selectFile (selected : Option File)
  | upload (r : UploadResponse)
  | clear
  | switchMode (rag : Bool)
  | typeText (text : String)
  deriving DecidableEq, Repr

/-- The page's reaction to one action. -/
def applyEvent (s : State) : PageEvent → State
  | .selectFile selected => handleFileChange s selected
  | .upload r => (handleUpload s r).state
  | .clear => handleClearDocument s
  | .switchMode rag => if rag then onClickChatWithPdf s else onClickGeneralChat s
  | .typeText text => typeQuestion s text

/-- The state after a run of actions on a fresh page. -/
def runEvents (evs : List PageEvent) : State :=
  evs.foldl applyEvent initialState

/-- Whether the upload state is Ready after one more action, in the words of
the specification: an upload has completed successfully and no file
selection, clear or mode switch has happened since.  `s` is the state the
action meets. -/
def readyStep (s : State) (ready : Bool) : PageEvent → Bool
  | .selectFile (some _) => false
  | .selectFile none => ready
  | .upload .success => if s.file.isSome then true else ready
  | .upload (.failure _) => if s.file.isSome then false else ready
  | .clear => false
  | .switchMode _ => false
  | .typeText _ => ready

/-- The state and the Ready flag after a run of actions, from the pair
`p`. -/
def runFrom (p : State × Bool) (evs : List PageEvent) : State × Bool :=
  evs.foldl (fun q e => (applyEvent q.1 e, readyStep q.1 q.2 e)) p

/-- Whether the upload state is Ready after a run of actions on a fresh
page. -/
def readyAfter (evs : List PageEvent) : Bool :=
  (runFrom (initialState, false) evs).2

/-! ## The study prompt in the words of the specification -/

/-- A value that is present: `undefined` and the empty string are not. -/
def presentJs : Option String → Option String
  | some e => if e = "" then none else some e
  | none => none

/-- The topic title of a study task: `task.task_title || task.name`. -/
def topicTitle (t : StudyTask) : Option String :=
  orElseJs t.task.task_title t.task.name

/-- The topic description of a study task, when it has one:
`task.task_description || task.description`. -/
def topicDetails (t : StudyTask) : Option String :=
  presentJs (orElseJs t.task.task_description t.task.description)

/-- The origin label of a study task, when it has one: `scheduleName`. -/
def originLabel (t : StudyTask) : Option String :=
  presentJs t.scheduleName

/-- The fixed template, line by line: the heading, a blank line, the details
line (an empty line without details), the attribution line, a blank line and
the closing line. -/
def studyTemplate (title : String) (details origin : Option String) : String :=
  String.intercalate "\n"
    ["I want to study and learn about: \"" ++ title ++ "\"",
     "",
     (match details with
      | some d => "**Topic Details:** " ++ d
      | none => ""),
     "**From:** " ++ origin.getD "My Studies",
     "",
     "Please teach me about this topic with clear explanations and practical examples."]

/-! ## The invariant of the form gate -/

/-- The invariant of runs of the upload controls: nothing is in flight between
actions; a Ready upload state shows the success message in Document mode with
the file still held; and in Document mode without Ready the status message
does not hold the words the form looks for. -/
def GateInv (p : State × Bool) : Prop :=
  p.1.isLoading = false ∧
  (p.2 = true →
    p.1.uploadStatus = "✅ PDF uploaded and processed successfully!" ∧
      p.1.isRagMode = true ∧ p.1.file.isSome = true) ∧
  (p.2 = false → p.1.isRagMode = true →
    jsIncludes p.1.uploadStatus "processed successfully" = false)

/-- An action that does not pick a file whose name holds the words
"processed successfully". -/
def plainName : PageEvent → Prop
  | .selectFile (some f) => jsIncludes f.name "processed successfully" = false
  | _ => True

/-! ## Example states -/

/-- A fresh page with "What is 2+2?" typed into the question input. -/
def askingState : State :=
  { initialState with question := "What is 2+2?" }

/-- A page with a request in flight and "hi" in the question cell. -/
def busyAskState : State :=
  { initialState with
    question := "hi"
    isLoading := true
    chatHistory := [{ sender := .user, text := "first" }] }

/-- A fresh page with only white space typed into the question input. -/
def blankState : State :=
  { initialState with question := "  \t " }

/-- Document mode with a candidate file picked and not yet uploaded, and a
question left in the question cell. -/
def selectedState : State :=
  { initialState with
    question := "Summarize"
    isRagMode := true
    file := some { name := "notes.pdf" }
    uploadStatus := "Ready to upload: notes.pdf"
    chatHistory := [{ sender := .bot, text := "earlier" }] }

/-- Document mode right after the mode button: no candidate file. -/
def noFileState : State :=
  { initialState with isRagMode := true }

/-- The actions of a user who opens "Chat with PDF", picks a file whose name
holds the words "processed successfully" and types a question, without
uploading anything. -/
def markerNameRun : List PageEvent :=
  [.switchMode true,
   .selectFile (some { name := "processed successfully.pdf" }),
   .typeText "Summarize"]

/-- The study task of scenario D: topic "Recursion" from "Algorithms 101". -/
def recursionTask : StudyTask :=
  { task := { task_title := some "Recursion", name := none,
              task_description := none, description := none },
    scheduleName := some "Algorithms 101" }

/-- Another study task, with a description and no origin label. -/
def sortingTask : StudyTask :=
  { task := { task_title := none, name := some "Sorting",
              task_description := none, description := some "Merge sort" },
    scheduleName := none }

/-- A page in Document mode with a request in flight, one turn in the log and
no study task consumed yet. -/
def busyDocumentState : State :=
  { initialState with
    isRagMode := true
    isLoading := true
    chatHistory := [{ sender := .user, text := "Summarize" }] }

/-- A page in General mode with a request in flight and no study task
consumed yet. -/
def busyGeneralState : State :=
  { initialState with
    isLoading := true
    chatHistory := [{ sender := .user, text := "What is 2+2?" }] }

/-! ## Helper lemmas -/

theorem handleAskQuestion_of_not_blank (s : State) (r : AskResponse)
    (hq : jsTrim s.question ≠ "") :
    handleAskQuestion s r =
      ({ s with
         chatHistory := s.chatHistory ++
           [{ sender := .user, text := s.question }, { sender := .bot, text := askReplyText r }]
         isLoading := false
         question := "" },
       [{ question := s.question, isGeneral := !s.isRagMode }]) := by
  simp [handleAskQuestion, handleAskQuestionBegin, handleAskQuestionEnd, hq]

theorem handleAskQuestion_of_blank (s : State) (r : AskResponse)
    (hq : jsTrim s.question = "") :
    handleAskQuestion s r = (s, []) := by
  simp [handleAskQuestion, handleAskQuestionBegin, hq]

theorem submitForm_request_mode (s : State) (r : AskResponse) (req : AskRequest)
    (hreq : req ∈ (submitForm s r).2) : req.isGeneral = !s.isRagMode := by
  unfold submitForm at hreq
  split at hreq
  · simp at hreq
  · by_cases hq : jsTrim s.question = ""
    · rw [handleAskQuestion_of_blank s r hq] at hreq
      simp at hreq
    · rw [handleAskQuestion_of_not_blank s r hq] at hreq
      simp at hreq
      rw [hreq]

theorem submitDisabled_of_isLoading (s : State) (h : s.isLoading = true) :
    submitDisabled s = true := by
  simp [submitDisabled, h]

theorem inputDisabled_of_isLoading (s : State) (h : s.isLoading = true) :
    inputDisabled s = true := by
  simp [inputDisabled, h]

theorem studyPrompt_eq_studyTemplate (t : StudyTask) :
    studyPrompt t =
      studyTemplate (interpolate (topicTitle t)) (topicDetails t) (originLabel t) := by
  obtain ⟨⟨tt, nm, td, ds⟩, sn⟩ := t
  have hd : (match orElseJs td ds with
      | some d => if d = "" then "" else "**Topic Details:** " ++ d
      | none => "") =
      (match presentJs (orElseJs td ds) with
      | some d => "**Topic Details:** " ++ d
      | none => "") := by
    cases h : orElseJs td ds with
    | none => rfl
    | some d =>
      by_cases hd : d = ""
      · simp [presentJs, hd]
      · simp [presentJs, hd]
  have ho : orDefault sn "My Studies" = (presentJs sn).getD "My Studies" := by
    cases sn with
    | none => rfl
    | some o =>
      by_cases ho : o = ""
      · simp [orDefault, presentJs, ho]
      · simp [orDefault, presentJs, ho]
  simp only [studyPrompt, studyTemplate, topicTitle, topicDetails, originLabel, hd, ho]
  apply String.ext
  simp [String.intercalate, String.intercalate.go, String.data_append]

theorem studyEffect_of_idle (s : State) (t : StudyTask)
    (hidle : s.studyProcessed = false) (hnew : s.studyTaskRef ≠ some t) :
    studyEffect s (some t) =
      ({ s with
         studyTaskRef := some t
         isRagMode := false
         chatHistory := []
         studyProcessed := true
         question := studyPrompt t },
       some { studyPrompt := studyPrompt t, isLoading := s.isLoading,
              chatHistory := s.chatHistory, isRagMode := s.isRagMode }) := by
  have h : some t ≠ s.studyTaskRef := fun h => hnew h.symm
  simp [studyEffect, hidle, h]

theorem studyEffect_of_consumed (s : State) (studyTask : Option StudyTask)
    (hdone : s.studyProcessed = true) :
    studyEffect s studyTask = (s, none) := by
  cases studyTask with
  | none => rfl
  | some t => simp [studyEffect, hdone]

theorem fireStudyTimer_eq (t : StudyTimer) (s : State) (r : AskResponse) :
    fireStudyTimer t s r =
      if t.isLoading || lastIsUserPrompt t.chatHistory t.studyPrompt then (s, [])
      else
        ({ s with
           isLoading := false
           chatHistory := s.chatHistory ++
             [{ sender := .user, text := t.studyPrompt },
              { sender := .bot, text := studyReplyText r }]
           question := "" },
         [{ question := t.studyPrompt, isGeneral := !t.isRagMode }]) := by
  cases hl : t.isLoading <;> cases hd : lastIsUserPrompt t.chatHistory t.studyPrompt <;>
    simp [fireStudyTimer, handleStudyQuestion, handleStudyQuestionBegin,
      handleStudyQuestionEnd, hl, hd]

theorem jsIncludes_ready_to_upload (name : String) :
    jsIncludes ("Ready to upload: " ++ name) "processed successfully" =
      jsIncludes name "processed successfully" := by
  simp [jsIncludes, String.data_append, containsChars, startsWithChars]

theorem gateInv_initial : GateInv (initialState, false) := by
  refine ⟨rfl, ?_, ?_⟩
  · intro h; cases h
  · intro _ h; cases h

theorem gateInv_step (p : State × Bool) (e : PageEvent) (hp : GateInv p)
    (he : plainName e) : GateInv (applyEvent p.1 e, readyStep p.1 p.2 e) := by
  obtain ⟨s, ready⟩ := p
  obtain ⟨hl, hr, hn⟩ := hp
  simp only at hl hr hn
  cases e with
  | selectFile selected =>
    cases selected with
    | none => exact ⟨hl, hr, hn⟩
    | some f =>
      refine ⟨hl, ?_, ?_⟩
      · intro h; cases h
      · intro _ _
        simp only [applyEvent, handleFileChange]
        rw [jsIncludes_ready_to_upload]
        exact he
  | upload r =>
    cases hf : s.file with
    | none =>
      have hready : ready = false := by
        cases ready with
        | false => rfl
        | true => have := (hr rfl).2.2; simp [hf] at this
      subst hready
      have hst : applyEvent s (.upload r) =
          { s with uploadStatus := "Please select a file first." } := by
        simp [applyEvent, handleUpload, handleUploadBegin, hf]
      have hrd : readyStep s false (.upload r) = false := by
        cases r <;> simp [readyStep, hf]
      rw [hst, hrd]
      refine ⟨hl, ?_, ?_⟩
      · intro h; cases h
      · intro _ _
        show jsIncludes "Please select a file first." "processed successfully" = false
        decide
    | some f =>
      cases r with
      | success =>
        have hst : applyEvent s (.upload .success) =
            { s with
              isLoading := false
              uploadStatus := "✅ PDF uploaded and processed successfully!"
              chatHistory := []
              isRagMode := true } := by
          simp [applyEvent, handleUpload, handleUploadBegin, handleUploadEnd, hf]
        have hrd : readyStep s ready (.upload .success) = true := by
          simp [readyStep, hf]
        rw [hst, hrd]
        refine ⟨rfl, ?_, ?_⟩
        · intro _
          exact ⟨rfl, rfl, by simp [hf]⟩
        · intro h; cases h
      | failure error =>
        have hst : applyEvent s (.upload (.failure error)) =
            { s with
              isLoading := false
              uploadStatus := orDefault error "Error uploading file."
              chatHistory := []
              isRagMode := false } := by
          simp [applyEvent, handleUpload, handleUploadBegin, handleUploadEnd, hf]
        have hrd : readyStep s ready (.upload (.failure error)) = false := by
          simp [readyStep, hf]
        rw [hst, hrd]
        refine ⟨rfl, ?_, ?_⟩
        · intro h; cases h
        · intro _ h; cases h
  | clear =>
    refine ⟨hl, ?_, ?_⟩
    · intro h; cases h
    · intro _ h; cases h
  | switchMode rag =>
    cases rag with
    | false =>
      refine ⟨hl, ?_, ?_⟩
      · intro h; cases h
      · intro _ h; cases h
    | true =>
      refine ⟨hl, ?_, ?_⟩
      · intro h; cases h
      · intro _ _
        show jsIncludes "" "processed successfully" = false
        decide
  | typeText text =>
    have hst : applyEvent s (.typeText text) = s ∨
        applyEvent s (.typeText text) = { s with question := text } := by
      simp only [applyEvent, typeQuestion]
      split
      · exact Or.inl rfl
      · exact Or.inr rfl
    have hrd : readyStep s ready (.typeText text) = ready := rfl
    rw [hrd]
    rcases hst with h | h <;> rw [h] <;> exact ⟨hl, hr, hn⟩

theorem gateInv_runFrom (evs : List PageEvent) (p : State × Bool) (hp : GateInv p)
    (he : ∀ e ∈ evs, plainName e) : GateInv (runFrom p evs) := by
  induction evs generalizing p with
  | nil => exact hp
  | cons e evs ih =>
    have h1 : GateInv (applyEvent p.1 e, readyStep p.1 p.2 e) :=
      gateInv_step p e hp (he e (List.mem_cons_self e evs))
    have h2 := ih (applyEvent p.1 e, readyStep p.1 p.2 e) h1
      (fun x hx => he x (List.mem_cons_of_mem e hx))
    simpa [runFrom] using h2

theorem runFrom_fst (evs : List PageEvent) (p : State × Bool) :
    (runFrom p evs).1 = evs.foldl applyEvent p.1 := by
  induction evs generalizing p with
  | nil => rfl
  | cons e evs ih =>
    have := ih (applyEvent p.1 e, readyStep p.1 p.2 e)
    simpa [runFrom] using this

/-- In runs that pick no file whose name holds the words
"processed successfully", the form's gate and the Ready flag agree in
Document mode: without Ready the input is disabled and a submit of any draft
is refused; with Ready the gate is open for every non-blank draft. -/
theorem gate_agrees_with_ready (evs : List PageEvent) (draft : String) (r : AskResponse)
    (he : ∀ e ∈ evs, plainName e) (hmode : (runEvents evs).isRagMode = true) :
    (readyAfter evs = false →
      inputDisabled (runEvents evs) = true ∧
        submitForm { runEvents evs with question := draft } r =
          ({ runEvents evs with question := draft }, [])) ∧
    (readyAfter evs = true → jsTrim draft ≠ "" →
      submitDisabled { runEvents evs with question := draft } = false) := by
  have hinv := gateInv_runFrom evs (initialState, false) gateInv_initial he
  have hfst : (runFrom (initialState, false) evs).1 = runEvents evs :=
    runFrom_fst evs (initialState, false)
  obtain ⟨hl, hr, hn⟩ := hinv
  rw [hfst] at hl hr hn
  constructor
  · intro hready
    have hno := hn hready hmode
    constructor
    · simp [inputDisabled, hmode, hno]
    · simp [submitForm, submitDisabled, hmode, hno]
  · intro hready hdraft
    have hst := (hr hready).1
    have hinc : jsIncludes (runEvents evs).uploadStatus "processed successfully" = true := by
      rw [hst]; decide
    simp [submitDisabled, hl, hdraft, hinc]

/-- In General mode the gate of the form does not read the upload state. -/
theorem general_mode_gate (s : State) (hmode : s.isRagMode = false) :
    submitDisabled s = (s.isLoading || decide (jsTrim s.question = "")) ∧
      inputDisabled s = s.isLoading := by
  simp [submitDisabled, inputDisabled, hmode]

/-! ## Theorems -/

/-- C1: from a state that is not busy and whose question is not blank after
trimming, one run of `handleAskQuestion` appends exactly two turns to the end
of the log and leaves the earlier turns as they were: the user turn with the
question, then one assistant turn whose text is the answer on success, on
failure the reported error (a non-empty string), and the fallback
"Sorry, I encountered an error." when no error is reported or it is the
empty string; busy is false at the end in both cases, and the one request
sent carries the question.  A submit of the form is that same run whenever
the mode is General or the status message shows a processed upload. -/
theorem handleAskQuestion_appends_exchange (s : State) (r : AskResponse)
    (hbusy : s.isLoading = false) (hq : jsTrim s.question ≠ "") :
    (handleAskQuestion s r).1.chatHistory =
        s.chatHistory ++
          [{ sender := .user, text := s.question },
           { sender := .bot,
             text := match r with
               | .answer a => a
               | .failure (some e) => if e = "" then "Sorry, I encountered an error." else e
               | .failure none => "Sorry, I encountered an error." }] ∧
      (handleAskQuestion s r).1.isLoading = false ∧
      (handleAskQuestion s r).2 = [{ question := s.question, isGeneral := !s.isRagMode }] ∧
      (s.isRagMode = false ∨ jsIncludes s.uploadStatus "processed successfully" = true →
        submitForm s r = handleAskQuestion s r) := by
  refine ⟨?_, ?_, ?_, ?_⟩
  · rw [handleAskQuestion_of_not_blank s r hq]
    cases r with
    | answer a => rfl
    | failure e =>
      cases e with
      | none => rfl
      | some e => rfl
  · rw [handleAskQuestion_of_not_blank s r hq]
  · rw [handleAskQuestion_of_not_blank s r hq]
  · intro hgate
    have hopen : submitDisabled s = false := by
      rcases hgate with h | h <;> simp [submitDisabled, hbusy, hq, h]
    simp [submitForm, hopen]

/-- Witness of C1: "What is 2+2?" asked on a fresh page and answered "4". -/
theorem handleAskQuestion_appends_exchange_witness :
    (handleAskQuestion askingState (.answer "4")).1.chatHistory =
        askingState.chatHistory ++
          [{ sender := .user, text := askingState.question },
           { sender := .bot,
             text := match AskResponse.answer "4" with
               | .answer a => a
               | .failure (some e) => if e = "" then "Sorry, I encountered an error." else e
               | .failure none => "Sorry, I encountered an error." }] ∧
      (handleAskQuestion askingState (.answer "4")).1.isLoading = false ∧
      (handleAskQuestion askingState (.answer "4")).2 =
        [{ question := askingState.question, isGeneral := !askingState.isRagMode }] ∧
      (askingState.isRagMode = false ∨
          jsIncludes askingState.uploadStatus "processed successfully" = true →
        submitForm askingState (.answer "4") = handleAskQuestion askingState (.answer "4")) :=
  handleAskQuestion_appends_exchange askingState (.answer "4") rfl (by decide)

/-- C2: whatever the state before, each of the two mode buttons sets the mode
to its target and leaves the log empty, no candidate file, an empty status
message, the consumed flag false and the last-consumed study task null. -/
theorem mode_switch_resets (s : State) :
    ((onClickGeneralChat s).isRagMode = false ∧
      (onClickGeneralChat s).chatHistory = [] ∧
      (onClickGeneralChat s).file = none ∧
      (onClickGeneralChat s).uploadStatus = "" ∧
      (onClickGeneralChat s).studyProcessed = false ∧
      (onClickGeneralChat s).studyTaskRef = none) ∧
    ((onClickChatWithPdf s).isRagMode = true ∧
      (onClickChatWithPdf s).chatHistory = [] ∧
      (onClickChatWithPdf s).file = none ∧
      (onClickChatWithPdf s).uploadStatus = "" ∧
      (onClickChatWithPdf s).studyProcessed = false ∧
      (onClickChatWithPdf s).studyTaskRef = none) :=
  ⟨⟨rfl, rfl, rfl, rfl, rfl, rfl⟩, ⟨rfl, rfl, rfl, rfl, rfl, rfl⟩⟩

/-- C10: when the question is empty after trimming, `handleAskQuestion`
returns at once: no request is sent and the whole state (log, busy flag,
draft, mode, upload state) is what it was. -/
theorem handleAskQuestion_blank_noop (s : State) (r : AskResponse)
    (hq : jsTrim s.question = "") :
    handleAskQuestion s r = (s, []) ∧ handleAskQuestionBegin s = none := by
  refine ⟨handleAskQuestion_of_blank s r hq, ?_⟩
  simp [handleAskQuestionBegin, hq]

/-- Witness of C10: a question of blanks and a tab. -/
theorem handleAskQuestion_blank_noop_witness :
    handleAskQuestion blankState (.answer "4") = (blankState, []) ∧
      handleAskQuestionBegin blankState = none :=
  handleAskQuestion_blank_noop blankState (.answer "4") (by decide)

/-- C4: a submit issued while busy is a no-op for every question text and
every state.  The form's `onSubmit` is the only caller of
`handleAskQuestion`, and while busy the question input and the submit button
are disabled, so the submit appends no turn, sends no request and leaves busy
and every other cell unchanged; typing changes nothing either. -/
theorem submitForm_busy_noop (s : State) (r : AskResponse) (text : String)
    (hbusy : s.isLoading = true) :
    inputDisabled s = true ∧ submitDisabled s = true ∧
      submitForm s r = (s, []) ∧ typeQuestion s text = s := by
  have hi := inputDisabled_of_isLoading s hbusy
  have hs := submitDisabled_of_isLoading s hbusy
  refine ⟨hi, hs, ?_, ?_⟩
  · simp [submitForm, hs]
  · simp [typeQuestion, hi]

/-- Witness of C4: the busy state with "hi" in the question cell. -/
theorem submitForm_busy_noop_witness :
    inputDisabled busyAskState = true ∧ submitDisabled busyAskState = true ∧
      submitForm busyAskState (.answer "4") = (busyAskState, []) ∧
      typeQuestion busyAskState "again" = busyAskState :=
  submitForm_busy_noop busyAskState (.answer "4") "again" rfl

/-- C5, failing run: after "Chat with PDF", picking a file named
"processed successfully.pdf" and typing "Summarize", nothing has been
uploaded and the upload state is not Ready, yet the mode is Document, the
input and the submit button are enabled, and a submit sends a document
question and appends both turns. -/
theorem marker_in_file_name_opens_gate :
    readyAfter markerNameRun = false ∧
      (runEvents markerNameRun).isRagMode = true ∧
      (runEvents markerNameRun).uploadStatus = "Ready to upload: processed successfully.pdf" ∧
      inputDisabled (runEvents markerNameRun) = false ∧
      submitDisabled (runEvents markerNameRun) = false ∧
      (submitForm (runEvents markerNameRun) (.answer "ok")).2 =
        [{ question := "Summarize", isGeneral := false }] ∧
      (submitForm (runEvents markerNameRun) (.answer "ok")).1.chatHistory =
        [{ sender := .user, text := "Summarize" }, { sender := .bot, text := "ok" }] := by
  decide

/-- C6, counterexample: a failed upload started in Document mode ends in
General mode. -/
theorem handleUpload_failure_leaves_document_mode :
    selectedState.isRagMode = true ∧ selectedState.file = some { name := "notes.pdf" } ∧
      (handleUpload selectedState (.failure (some "Bad PDF"))).state.isRagMode = false := by
  decide

/-- C6, amended: when an upload fails from a state with a candidate file,
the status message becomes the reported error when one is reported and
non-empty, "Error uploading file." otherwise; busy is false; the mode is
General whatever it was; the candidate file is kept and the log is empty;
and a question submitted next is sent as a general question. -/
theorem handleUpload_failure (s : State) (f : File) (error : Option String)
    (hfile : s.file = some f) :
    (handleUpload s (.failure error)).state.uploadStatus =
        (match error with
          | some e => if e = "" then "Error uploading file." else e
          | none => "Error uploading file.") ∧
      (handleUpload s (.failure error)).state.isLoading = false ∧
      (handleUpload s (.failure error)).state.isRagMode = false ∧
      (handleUpload s (.failure error)).state.file = some f ∧
      (handleUpload s (.failure error)).state.chatHistory = [] ∧
      (handleUpload s (.failure error)).uploads = [f] ∧
      (handleUpload s (.failure error)).welcomeScheduled = false ∧
      ∀ (r : AskResponse) (req : AskRequest),
        req ∈ (submitForm (handleUpload s (.failure error)).state r).2 →
          req.isGeneral = true := by
  have hrun : handleUpload s (.failure error) =
      { state := { s with
                   isLoading := false
                   uploadStatus := orDefault error "Error uploading file."
                   chatHistory := []
                   isRagMode := false },
        uploads := [f], welcomeScheduled := false } := by
    simp [handleUpload, handleUploadBegin, handleUploadEnd, hfile]
  rw [hrun]
  refine ⟨?_, rfl, rfl, hfile, rfl, rfl, rfl, ?_⟩
  · cases error with
    | none => rfl
    | some e => rfl
  · intro r req hreq
    exact submitForm_request_mode _ r req hreq

/-- Witness of C6, amended: the upload of "notes.pdf" rejected with
"Bad PDF". -/
theorem handleUpload_failure_witness :
    (handleUpload selectedState (.failure (some "Bad PDF"))).state.uploadStatus =
        (match some "Bad PDF" with
          | some e => if e = "" then "Error uploading file." else e
          | none => "Error uploading file.") ∧
      (handleUpload selectedState (.failure (some "Bad PDF"))).state.isLoading = false ∧
      (handleUpload selectedState (.failure (some "Bad PDF"))).state.isRagMode = false ∧
      (handleUpload selectedState (.failure (some "Bad PDF"))).state.file =
        some { name := "notes.pdf" } ∧
      (handleUpload selectedState (.failure (some "Bad PDF"))).state.chatHistory = [] ∧
      (handleUpload selectedState (.failure (some "Bad PDF"))).uploads =
        [{ name := "notes.pdf" }] ∧
      (handleUpload selectedState (.failure (some "Bad PDF"))).welcomeScheduled = false ∧
      ∀ (r : AskResponse) (req : AskRequest),
        req ∈ (submitForm (handleUpload selectedState (.failure (some "Bad PDF"))).state r).2 →
          req.isGeneral = true :=
  handleUpload_failure selectedState { name := "notes.pdf" } (some "Bad PDF") rfl

/-- C7, counterexample: `handleUpload` with no candidate file changes the
status message. -/
theorem handleUpload_no_file_changes_status :
    noFileState.file = none ∧ noFileState.uploadStatus = "" ∧
      (handleUpload noFileState .success).state.uploadStatus =
        "Please select a file first." ∧
      (handleUpload noFileState .success).state.uploadStatus ≠ noFileState.uploadStatus := by
  decide

/-- C7, amended: `handleUpload` is refused exactly when there is no candidate
file.  With no candidate file it sends no upload request, sets no timer and
leaves the candidate file, the log, the mode, busy and every other cell as
they were, except the status message, which becomes
"Please select a file first."; with a candidate file it posts that file
whatever the status message says. -/
theorem handleUpload_no_file (s : State) (r : UploadResponse) (hfile : s.file = none) :
    handleUpload s r =
      { state := { s with uploadStatus := "Please select a file first." },
        uploads := [], welcomeScheduled := false } ∧
      (handleUpload s r).state.file = s.file ∧
      (handleUpload s r).state.chatHistory = s.chatHistory ∧
      (handleUpload s r).state.isRagMode = s.isRagMode ∧
      (handleUpload s r).state.isLoading = s.isLoading ∧
      (handleUpload s r).uploads = [] ∧
      ∀ (s2 : State) (f : File), s2.file = some f → (handleUpload s2 r).uploads = [f] := by
  have hrun : handleUpload s r =
      { state := { s with uploadStatus := "Please select a file first." },
        uploads := [], welcomeScheduled := false } := by
    simp [handleUpload, handleUploadBegin, hfile]
  rw [hrun]
  refine ⟨rfl, rfl, rfl, rfl, rfl, rfl, ?_⟩
  intro s2 f hf
  simp [handleUpload, handleUploadBegin, hf]

/-- Witness of C7, amended: Document mode with nothing picked. -/
theorem handleUpload_no_file_witness :
    handleUpload noFileState .success =
      { state := { noFileState with uploadStatus := "Please select a file first." },
        uploads := [], welcomeScheduled := false } ∧
      (handleUpload noFileState .success).state.file = noFileState.file ∧
      (handleUpload noFileState .success).state.chatHistory = noFileState.chatHistory ∧
      (handleUpload noFileState .success).state.isRagMode = noFileState.isRagMode ∧
      (handleUpload noFileState .success).state.isLoading = noFileState.isLoading ∧
      (handleUpload noFileState .success).uploads = [] ∧
      ∀ (s2 : State) (f : File), s2.file = some f →
        (handleUpload s2 .success).uploads = [f] :=
  handleUpload_no_file noFileState .success rfl

/-- C3, counterexample: a study task delivered twice to a page that is busy
and has consumed nothing is consumed by the first delivery, yet no request
is sent and no user turn is appended, neither by the timer the first
delivery set nor by the second delivery. -/
theorem busy_trigger_twice_submits_nothing :
    busyGeneralState.studyProcessed = false ∧ busyGeneralState.studyTaskRef = none ∧
      (studyEffect busyGeneralState (some recursionTask)).1.studyProcessed = true ∧
      (fireScheduled (studyEffect busyGeneralState (some recursionTask)) (.answer "ok")).2 = [] ∧
      (fireScheduled
        (studyEffect
          (fireScheduled (studyEffect busyGeneralState (some recursionTask)) (.answer "ok")).1
          (some recursionTask))
        (.answer "ok")).2 = [] ∧
      (fireScheduled
        (studyEffect
          (fireScheduled (studyEffect busyGeneralState (some recursionTask)) (.answer "ok")).1
          (some recursionTask))
        (.answer "ok")).1.chatHistory = [] := by
  decide

/-- C3, amended: from a state whose consumed flag is false and whose
last-consumed study task is not `t`, the first delivery of `t` sets the
consumed flag, records `t` and sets exactly one timer for the synthesized
prompt; a second delivery of `t`, before or after that timer fired, sets no
timer and changes no state; and the timer sends exactly one request when the
page was not busy at the first delivery and its log did not end with a user
turn of the same prompt, and none otherwise. -/
theorem study_trigger_delivered_twice (s : State) (t : StudyTask) (r : AskResponse)
    (hidle : s.studyProcessed = false) (hnew : s.studyTaskRef ≠ some t) :
    (studyEffect s (some t)).1.studyProcessed = true ∧
      (studyEffect s (some t)).1.studyTaskRef = some t ∧
      (studyEffect s (some t)).2 =
        some { studyPrompt := studyPrompt t, isLoading := s.isLoading,
               chatHistory := s.chatHistory, isRagMode := s.isRagMode } ∧
      studyEffect (studyEffect s (some t)).1 (some t) = ((studyEffect s (some t)).1, none) ∧
      studyEffect (fireScheduled (studyEffect s (some t)) r).1 (some t) =
        ((fireScheduled (studyEffect s (some t)) r).1, none) ∧
      (fireScheduled (studyEffect s (some t)) r).2 =
        (if s.isLoading || lastIsUserPrompt s.chatHistory (studyPrompt t) then []
         else [{ question := studyPrompt t, isGeneral := !s.isRagMode }]) := by
  rw [studyEffect_of_idle s t hidle hnew]
  refine ⟨rfl, rfl, rfl, studyEffect_of_consumed _ _ rfl, ?_, ?_⟩
  · apply studyEffect_of_consumed
    simp only [fireScheduled, fireStudyTimer_eq]
    split <;> rfl
  · simp only [fireScheduled, fireStudyTimer_eq]
    split <;> rfl

/-- Witness of C3, amended: the task of scenario D delivered to a fresh
page. -/
theorem study_trigger_delivered_twice_witness :
    (studyEffect initialState (some recursionTask)).1.studyProcessed = true ∧
      (studyEffect initialState (some recursionTask)).1.studyTaskRef = some recursionTask ∧
      (studyEffect initialState (some recursionTask)).2 =
        some { studyPrompt := studyPrompt recursionTask, isLoading := initialState.isLoading,
               chatHistory := initialState.chatHistory, isRagMode := initialState.isRagMode } ∧
      studyEffect (studyEffect initialState (some recursionTask)).1 (some recursionTask) =
        ((studyEffect initialState (some recursionTask)).1, none) ∧
      studyEffect
          (fireScheduled (studyEffect initialState (some recursionTask)) (.answer "ok")).1
          (some recursionTask) =
        ((fireScheduled (studyEffect initialState (some recursionTask)) (.answer "ok")).1,
          none) ∧
      (fireScheduled (studyEffect initialState (some recursionTask)) (.answer "ok")).2 =
        (if initialState.isLoading ||
            lastIsUserPrompt initialState.chatHistory (studyPrompt recursionTask) then []
         else [{ question := studyPrompt recursionTask,
                 isGeneral := !initialState.isRagMode }]) :=
  study_trigger_delivered_twice initialState recursionTask (.answer "ok") rfl (by decide)

/-- C8: for a study task whose topic title is `title`, the synthesized prompt
is the fixed template filled with the title, the description when there is
one and the origin label (or "My Studies"); and when the task is consumed by
a page that is not busy, that exact string is the text of the user turn
appended and the question of the one request sent. -/
theorem studyPrompt_template_sent (s : State) (t : StudyTask) (title : String)
    (r : AskResponse) (htitle : topicTitle t = some title)
    (hidle : s.studyProcessed = false) (hnew : s.studyTaskRef ≠ some t)
    (hbusy : s.isLoading = false)
    (hdup : lastIsUserPrompt s.chatHistory (studyPrompt t) = false) :
    studyPrompt t = studyTemplate title (topicDetails t) (originLabel t) ∧
      (fireScheduled (studyEffect s (some t)) r).1.chatHistory =
        [{ sender := .user, text := studyTemplate title (topicDetails t) (originLabel t) },
         { sender := .bot, text := studyReplyText r }] ∧
      (fireScheduled (studyEffect s (some t)) r).2 =
        [{ question := studyTemplate title (topicDetails t) (originLabel t),
           isGeneral := !s.isRagMode }] := by
  have hp : studyPrompt t = studyTemplate title (topicDetails t) (originLabel t) := by
    rw [studyPrompt_eq_studyTemplate, htitle]
    rfl
  rw [studyEffect_of_idle s t hidle hnew]
  simp only [fireScheduled, fireStudyTimer_eq, hbusy, hdup]
  rw [hp]
  exact ⟨rfl, rfl, rfl⟩

/-- Witness of C8: scenario D, the task "Recursion" from "Algorithms 101"
delivered to a fresh page. -/
theorem studyPrompt_template_sent_witness :
    studyPrompt recursionTask =
        studyTemplate "Recursion" (topicDetails recursionTask) (originLabel recursionTask) ∧
      (fireScheduled (studyEffect initialState (some recursionTask)) (.answer "ok")).1.chatHistory =
        [{ sender := .user,
           text := studyTemplate "Recursion" (topicDetails recursionTask)
             (originLabel recursionTask) },
         { sender := .bot, text := studyReplyText (.answer "ok") }] ∧
      (fireScheduled (studyEffect initialState (some recursionTask)) (.answer "ok")).2 =
        [{ question := studyTemplate "Recursion" (topicDetails recursionTask)
             (originLabel recursionTask),
           isGeneral := !initialState.isRagMode }] :=
  studyPrompt_template_sent initialState recursionTask "Recursion" (.answer "ok") rfl rfl
    (by decide) rfl (by decide)

/-- C9, counterexample: a study task arriving while a request is in flight is
consumed all the same: the consumed flag and the last-consumed task change,
the mode and the log are reset, the timer sends nothing, and a later, distinct
task is not consumed even once busy has cleared. -/
theorem busy_trigger_is_consumed :
    busyDocumentState.isLoading = true ∧ busyDocumentState.studyProcessed = false ∧
      busyDocumentState.studyTaskRef = none ∧ busyDocumentState.isRagMode = true ∧
      busyDocumentState.chatHistory = [{ sender := .user, text := "Summarize" }] ∧
      (studyEffect busyDocumentState (some recursionTask)).1.studyProcessed = true ∧
      (studyEffect busyDocumentState (some recursionTask)).1.studyTaskRef =
        some recursionTask ∧
      (studyEffect busyDocumentState (some recursionTask)).1.isRagMode = false ∧
      (studyEffect busyDocumentState (some recursionTask)).1.chatHistory = [] ∧
      (fireScheduled (studyEffect busyDocumentState (some recursionTask)) (.answer "ok")).2 =
        [] ∧
      (studyEffect
        { (studyEffect busyDocumentState (some recursionTask)).1 with isLoading := false }
        (some sortingTask)).2 = none := by
  decide

/-- C9, amended: the effect consumes a study task whether or not the page is
busy.  For a task arriving while busy, at a page whose consumed flag is false
and whose last-consumed task is another one, the effect sets the consumed
flag, records the task, switches to General mode, empties the log and puts
the prompt in the question cell; the timer it sets sends nothing and changes
nothing; after that no delivery of any task is consumed, busy or not, until
a mode button clears the record, after which a delivered task is consumed
again. -/
theorem studyEffect_consumes_while_busy (s : State) (t later : StudyTask)
    (r : AskResponse) (busy : Bool) (hbusy : s.isLoading = true)
    (hidle : s.studyProcessed = false) (hnew : s.studyTaskRef ≠ some t) :
    (studyEffect s (some t)).1 =
        { s with
          studyTaskRef := some t
          isRagMode := false
          chatHistory := []
          studyProcessed := true
          question := studyPrompt t } ∧
      fireScheduled (studyEffect s (some t)) r = ((studyEffect s (some t)).1, []) ∧
      studyEffect { (studyEffect s (some t)).1 with isLoading := busy } (some later) =
        ({ (studyEffect s (some t)).1 with isLoading := busy }, none) ∧
      (studyEffect (onClickGeneralChat (studyEffect s (some t)).1) (some later)).1.studyTaskRef =
        some later ∧
      (studyEffect (onClickChatWithPdf (studyEffect s (some t)).1) (some later)).1.studyTaskRef =
        some later := by
  rw [studyEffect_of_idle s t hidle hnew]
  refine ⟨rfl, ?_, studyEffect_of_consumed _ _ rfl, ?_, ?_⟩
  · simp [fireScheduled, fireStudyTimer_eq, hbusy]
  · rw [studyEffect_of_idle _ later rfl (by simp [onClickGeneralChat])]
  · rw [studyEffect_of_idle _ later rfl (by simp [onClickChatWithPdf])]

/-- Witness of C9, amended: "Recursion" arriving in Document mode while a
request is in flight, "Sorting" delivered later. -/
theorem studyEffect_consumes_while_busy_witness :
    (studyEffect busyDocumentState (some recursionTask)).1 =
        { busyDocumentState with
          studyTaskRef := some recursionTask
          isRagMode := false
          chatHistory := []
          studyProcessed := true
          question := studyPrompt recursionTask } ∧
      fireScheduled (studyEffect busyDocumentState (some recursionTask)) (.answer "ok") =
        ((studyEffect busyDocumentState (some recursionTask)).1, []) ∧
      studyEffect
          { (studyEffect busyDocumentState (some recursionTask)).1 with isLoading := false }
          (some sortingTask) =
        ({ (studyEffect busyDocumentState (some recursionTask)).1 with isLoading := false },
          none) ∧
      (studyEffect (onClickGeneralChat (studyEffect busyDocumentState (some recursionTask)).1)
        (some sortingTask)).1.studyTaskRef = some sortingTask ∧
      (studyEffect (onClickChatWithPdf (studyEffect busyDocumentState (some recursionTask)).1)
        (some sortingTask)).1.studyTaskRef = some sortingTask :=
  studyEffect_consumes_while_busy busyDocumentState recursionTask sortingTask (.answer "ok")
    false rfl rfl (by decide)

end ChatPage
